import Mathlib

set_option linter.unusedVariables false
set_option linter.unnecessarySeqFocus false

/-!
# Shallow embedding of the agentkit core services

This file embeds the transaction-submission, confirmation-tracking,
allowance-management and flow-orchestration code of the agentkit repository
(`src/agentkit-core/src/services.ts`, `src/agentkit-core/src/agentkit.ts`,
`src/agentkit-core/src/actions/disperseAction.ts` and the bridge/swap action
sources) and proves the testable properties of its design document about the
embedded definitions.

Conventions of the embedding:
* JavaScript `bigint` values are modelled as `ℕ` (they are non-negative in all
  modelled code paths) or `ℤ` where a subtraction can go negative.
* Effectful calls (contract reads, HTTP fetches, transaction submission) are
  modelled by explicit environment records carrying the outcome of each call;
  a thrown exception is an `Option`/`Except` failure value.
* Functions additionally return an explicit log of the transactions they
  submitted, so that claims about "how many submissions happened" are
  statements about a pure value.
-/

namespace Agentkit

/-! ## Basic data: addresses, uint256, transaction responses -/

/-- Zero-address sentinel for the native currency
(`"0x0000000000000000000000000000000000000000"` in the source). -/
def zeroAddress : String := "0x0000000000000000000000000000000000000000"

/-- Second native-currency placeholder address treated as a synonym of the
zero address by the allowance code. -/
def eeeeAddress : String := "0xEeeeeEeeeEeEeeEeEeEeeEEEeeeeEeeeeeeeEEeE"

/-- The native-token test used by `checkTokenAllowance`, `approveToken` and
`checkAndApproveTokenAllowance`: the token address equals one of the two
placeholder addresses. -/
def isNativeToken (tokenAddress : String) : Bool :=
  tokenAddress == zeroAddress || tokenAddress == eeeeAddress

/-- `BigInt("0xffffffffffffffffffffffffffffffffffffffffffffffffffffffffffffffff")`
from `checkAndApproveTokenAllowance` (64 hex digits `f`). -/
def maxUint256 : ℕ :=
  0xffffffffffffffffffffffffffffffffffffffffffffffffffffffffffffffff

theorem maxUint256_eq : maxUint256 = 2 ^ 256 - 1 := by norm_num [maxUint256]

/-- Outcome of one `wallet.sendTransaction` call, supplied by the environment:
the sponsor accepted the operation, rejected it with an error field, or the
call threw. -/
inductive SendOutcome where
  | accepted (userOpHash : String)
  | rejected (userOpHash : String) (error : String)
  | threw (msg : String)
deriving DecidableEq, Repr

/-- The `TransactionResponse` shape of `types.ts` (the `error` union is
modelled as an optional string). -/
structure TransactionResponse where
  success : Bool
  userOpHash : String
  txHash : Option String := none
  error : Option String := none
  message : Option String := none
deriving DecidableEq, Repr

/-- JavaScript string interpolation of a possibly-undefined value. -/
def optionStr : Option String → String
  | some s => s
  | none => "undefined"

/-- The guidance message built by `sendTransaction` on acceptance. -/
def submittedGuidanceMsg (userOpHash : String) : String :=
  "Transaction submitted successfully!\nUser Operation Hash: " ++ userOpHash ++
    "\n\nYou can check the transaction status using the \x27check_transaction_status\x27 action."

/-- `sendTransaction` of `services.ts`: wraps the sponsor call, never throws;
returns the user-operation hash immediately without waiting for confirmation. -/
def sendTransactionModel : SendOutcome → TransactionResponse
  | .accepted h =>
      { success := true, userOpHash := h, message := some (submittedGuidanceMsg h) }
  | .rejected h e => { success := false, userOpHash := h, error := some e }
  | .threw m =>
      { success := false, userOpHash := "", error := some ("Transaction Error: " ++ m) }

/-! ## AllowanceManager: `checkTokenAllowance`, `approveToken`,
`checkAndApproveTokenAllowance` -/

/-- Environment for one allowance check-and-approve flow: the outcome of the
on-chain `allowance(owner, spender)` read (`none` = the read threw) and the
outcome of a subsequent approval submission. -/
structure AllowanceEnv where
  allowanceRead : Option ℕ
  send : SendOutcome
deriving DecidableEq, Repr

/-- `checkTokenAllowance`: returns `0` for the native sentinels, the read
allowance otherwise, and `0` if the read throws (the `catch` branch). -/
def checkTokenAllowance (env : AllowanceEnv) (tokenAddress spenderAddress : String) : ℕ :=
  if isNativeToken tokenAddress then 0
  else
    match env.allowanceRead with
    | some a => a
    | none => 0

/-- An ERC-20 `approve(spender, amount)` call submitted against `token`
(the structural content of the calldata built by `encodeFunctionData`). -/
structure ApprovalTx where
  token : String
  spender : String
  amount : ℕ
deriving DecidableEq, Repr

/-- `approveToken`: skips the native sentinels, otherwise builds the approval
transaction and submits it through `sendTransaction`.  The second component is
the log of submissions performed. -/
def approveToken (env : AllowanceEnv) (tokenAddress spenderAddress : String) (amount : ℕ) :
    TransactionResponse × List ApprovalTx :=
  if isNativeToken tokenAddress then
    ({ success := true, userOpHash := "" }, [])
  else
    (sendTransactionModel env.send, [⟨tokenAddress, spenderAddress, amount⟩])

/-- `checkAndApproveTokenAllowance`: short-circuit for native sentinels, then
skip when the current allowance suffices and `approveMax` is off, otherwise
approve either the exact required amount or `maxUint256`. -/
def checkAndApproveTokenAllowance (env : AllowanceEnv) (tokenAddress spenderAddress : String)
    (amount : ℕ) (approveMax : Bool) : TransactionResponse × List ApprovalTx :=
  if isNativeToken tokenAddress then
    ({ success := true, userOpHash := "" }, [])
  else
    let currentAllowance := checkTokenAllowance env tokenAddress spenderAddress
    if amount ≤ currentAllowance ∧ approveMax = false then
      ({ success := true, userOpHash := "" }, [])
    else
      let approvalAmount := if approveMax then maxUint256 else amount
      approveToken env tokenAddress spenderAddress approvalAmount

/-- C3: for a non-native token with `approveMax = false`, a sufficient current
allowance leads to zero submissions and a success result, and an insufficient
current allowance leads to exactly one approval submission for exactly the
required amount. -/
theorem checkAndApprove_exact_amount (env : AllowanceEnv) (token spender : String)
    (required : ℕ) (hnn : isNativeToken token = false) :
    (∀ current, env.allowanceRead = some current → required ≤ current →
        checkAndApproveTokenAllowance env token spender required false
          = ({ success := true, userOpHash := "" }, [])) ∧
    (∀ current, env.allowanceRead = some current → current < required →
        checkAndApproveTokenAllowance env token spender required false
          = (sendTransactionModel env.send, [⟨token, spender, required⟩])) := by
  constructor
  · intro current hread hle
    simp [checkAndApproveTokenAllowance, checkTokenAllowance, hnn, hread, hle]
  · intro current hread hlt
    simp [checkAndApproveTokenAllowance, checkTokenAllowance, approveToken, hnn, hread,
      Nat.not_le.mpr hlt]

theorem checkAndApprove_exact_amount_witness :
    isNativeToken "0xaaaaaaaaaaaaaaaaaaaaaaaaaaaaaaaaaaaaaaaa" = false ∧
    checkAndApproveTokenAllowance ⟨some 150, .accepted "0xop"⟩
        "0xaaaaaaaaaaaaaaaaaaaaaaaaaaaaaaaaaaaaaaaa" "0xspender" 100 false
      = ({ success := true, userOpHash := "" }, []) ∧
    checkAndApproveTokenAllowance ⟨some 50, .accepted "0xop"⟩
        "0xaaaaaaaaaaaaaaaaaaaaaaaaaaaaaaaaaaaaaaaa" "0xspender" 100 false
      = (sendTransactionModel (.accepted "0xop"),
         [⟨"0xaaaaaaaaaaaaaaaaaaaaaaaaaaaaaaaaaaaaaaaa", "0xspender", 100⟩]) := by
  refine ⟨by decide, ?_, ?_⟩
  · exact (checkAndApprove_exact_amount ⟨some 150, .accepted "0xop"⟩
      "0xaaaaaaaaaaaaaaaaaaaaaaaaaaaaaaaaaaaaaaaa" "0xspender" 100 (by decide)).1
      150 rfl (by decide)
  · exact (checkAndApprove_exact_amount ⟨some 50, .accepted "0xop"⟩
      "0xaaaaaaaaaaaaaaaaaaaaaaaaaaaaaaaaaaaaaaaa" "0xspender" 100 (by decide)).2
      50 rfl (by decide)

/-- C4: with `approveMax = true`, every approval submitted by
`checkAndApproveTokenAllowance` is for exactly `maxUint256`, regardless of the
required amount and the current allowance; for a non-native token the log is
exactly one such approval. -/
theorem checkAndApprove_max_override (env : AllowanceEnv) (token spender : String)
    (required : ℕ) :
    (∀ a ∈ (checkAndApproveTokenAllowance env token spender required true).2,
        a.amount = maxUint256) ∧
    (isNativeToken token = false →
        (checkAndApproveTokenAllowance env token spender required true).2
          = [⟨token, spender, maxUint256⟩]) := by
  constructor
  · intro a ha
    by_cases hnn : isNativeToken token
    · simp [checkAndApproveTokenAllowance, hnn] at ha
    · simp only [Bool.not_eq_true] at hnn
      simp [checkAndApproveTokenAllowance, approveToken, hnn] at ha
      simp [ha]
  · intro hnn
    simp [checkAndApproveTokenAllowance, approveToken, hnn]

theorem checkAndApprove_max_override_witness :
    (checkAndApproveTokenAllowance ⟨some 500, .accepted "0xop"⟩
        "0xaaaaaaaaaaaaaaaaaaaaaaaaaaaaaaaaaaaaaaaa" "0xspender" 100 true).2
      = [⟨"0xaaaaaaaaaaaaaaaaaaaaaaaaaaaaaaaaaaaaaaaa", "0xspender", maxUint256⟩] ∧
    (⟨"0xaaaaaaaaaaaaaaaaaaaaaaaaaaaaaaaaaaaaaaaa", "0xspender", maxUint256⟩ :
        ApprovalTx).amount = maxUint256 := by
  have h := checkAndApprove_max_override ⟨some 500, .accepted "0xop"⟩
    "0xaaaaaaaaaaaaaaaaaaaaaaaaaaaaaaaaaaaaaaaa" "0xspender" 100
  have hlog := h.2 (by decide)
  exact ⟨hlog, h.1 _ (by rw [hlog]; exact List.mem_singleton.mpr rfl)⟩

/-- C10: when the on-chain allowance read throws, `checkTokenAllowance`
reports `0`, and `checkAndApproveTokenAllowance` therefore treats the
current allowance as zero and submits an approval (for the required amount,
or `maxUint256` when `approveMax` is set) whose submission response — not the
read failure — is what it returns. -/
theorem allowanceReadFailure_treated_as_zero (env : AllowanceEnv) (token spender : String)
    (required : ℕ) (approveMax : Bool) (hnn : isNativeToken token = false)
    (hthrow : env.allowanceRead = none) :
    checkTokenAllowance env token spender = 0 ∧
    (0 < required ∨ approveMax = true →
        checkAndApproveTokenAllowance env token spender required approveMax
          = (sendTransactionModel env.send,
             [⟨token, spender, if approveMax then maxUint256 else required⟩])) := by
  constructor
  · simp [checkTokenAllowance, hnn, hthrow]
  · intro hcase
    have hz : checkTokenAllowance env token spender = 0 := by
      simp [checkTokenAllowance, hnn, hthrow]
    cases approveMax with
    | false =>
        have hreq : 0 < required := by
          rcases hcase with h | h
          · exact h
          · simp at h
        simp [checkAndApproveTokenAllowance, approveToken, hnn, hz, Nat.le_zero, hreq.ne']
    | true =>
        simp [checkAndApproveTokenAllowance, approveToken, hnn, hz]

theorem allowanceReadFailure_treated_as_zero_witness :
    checkTokenAllowance ⟨none, .accepted "0xop"⟩
        "0xaaaaaaaaaaaaaaaaaaaaaaaaaaaaaaaaaaaaaaaa" "0xspender" = 0 ∧
    checkAndApproveTokenAllowance ⟨none, .accepted "0xop"⟩
        "0xaaaaaaaaaaaaaaaaaaaaaaaaaaaaaaaaaaaaaaaa" "0xspender" 100 false
      = (sendTransactionModel (.accepted "0xop"),
         [⟨"0xaaaaaaaaaaaaaaaaaaaaaaaaaaaaaaaaaaaaaaaa", "0xspender", 100⟩]) := by
  have h := allowanceReadFailure_treated_as_zero ⟨none, .accepted "0xop"⟩
    "0xaaaaaaaaaaaaaaaaaaaaaaaaaaaaaaaaaaaaaaaa" "0xspender" 100 false (by decide) rfl
  exact ⟨h.1, h.2 (Or.inl (by decide))⟩

/-! ## ConfirmationTracker: `waitForTransaction` of `services.ts`

The polling loop is modelled as a function over an infinite trace of tick
observations (`obs : ℕ → TickObs`), one observation per `setInterval` tick,
with explicit fuel.  The fuel `⌈maxDuration / interval⌉` is exactly the number
of ticks after which the timeout branch must have fired, so returning
`some status` at that fuel is the termination statement. -/

/-- The `UserOpReceipt` fields read by the tracker: the nested
`receipt.blockNumber` / `receipt.transactionHash` and the top-level `success`
flag of the `eth_getUserOperationReceipt` response. -/
structure UserOpReceipt where
  blockNumber : ℕ
  success : Bool
  transactionHash : String
deriving DecidableEq, Repr

/-- What one polling tick observes: no receipt yet (`result: null`), a
receipt (together with the head height `rpcProvider.getBlockNumber` would
report this tick), or a thrown error (missing bundler URL, non-ok response,
fetch failure). -/
inductive TickObs where
  | noReceipt
  | receipt (r : UserOpReceipt) (latestBlock : ℕ)
  | failure (msg : String)
deriving DecidableEq, Repr

inductive TxStatusKind where
  | pending
  | confirmed
  | failed
deriving DecidableEq, Repr

/-- The `TransactionStatus` shape of `services.ts`. -/
structure TransactionStatus where
  status : TxStatusKind
  receipt : Option UserOpReceipt := none
  error : Option String := none
  blockNumber : Option ℕ := none
  blockConfirmations : Option ℤ := none
deriving DecidableEq, Repr

/-- Digits of `n` padded on the left with zeros to three characters
(the milliseconds part of a duration). -/
def pad3 (n : ℕ) : String :=
  if n < 10 then "00" ++ toString n
  else if n < 100 then "0" ++ toString n
  else toString n

/-- Rendering of the JavaScript expression `maxDuration / 1000` inside a
template literal: an integer when the division is exact, otherwise the exact
decimal with trailing zeros stripped (these quotients have at most three
decimals, which JavaScript prints exactly). -/
def msToSecString (ms : ℕ) : String :=
  if ms % 1000 = 0 then toString (ms / 1000)
  else toString (ms / 1000) ++ "." ++ (pad3 (ms % 1000)).dropRightWhile (· == '0')

/-- The timeout message of the `pending` resolution. -/
def exceededMessage (maxDuration : ℕ) : String :=
  "Exceeded maximum duration (" ++ msToSecString maxDuration ++ " sec) waiting for transaction"

/-- The tail of each tick: accumulate `interval` into `totalDuration` and
resolve `pending` once `maxDuration` is reached. -/
def timeoutStep (interval maxDuration totalDuration : ℕ) : TransactionStatus ⊕ ℕ :=
  if maxDuration ≤ totalDuration + interval then
    .inl { status := .pending, error := some (exceededMessage maxDuration) }
  else .inr (totalDuration + interval)

/-- One polling tick of `waitForTransaction`: resolve `failed` on a thrown
error; on a receipt whose nested `blockNumber` is truthy, resolve `confirmed`
immediately when `confirmations ≤ 1`, or when the confirmation depth
`latestBlock - blockNumber` reaches `confirmations`; otherwise fall through
to the timeout accounting.  Note: the receipt's `success` flag is never
consulted. -/
def waitTick (confirmations interval maxDuration totalDuration : ℕ) (o : TickObs) :
    TransactionStatus ⊕ ℕ :=
  match o with
  | .failure msg => .inl { status := .failed, error := some msg }
  | .noReceipt => timeoutStep interval maxDuration totalDuration
  | .receipt r latestBlock =>
      if r.blockNumber ≠ 0 then
        if 1 < confirmations then
          if (confirmations : ℤ) ≤ (latestBlock : ℤ) - (r.blockNumber : ℤ) then
            .inl { status := .confirmed, receipt := some r,
                   blockNumber := some r.blockNumber,
                   blockConfirmations := some ((latestBlock : ℤ) - (r.blockNumber : ℤ)) }
          else timeoutStep interval maxDuration totalDuration
        else
          .inl { status := .confirmed, receipt := some r,
                 blockNumber := some r.blockNumber, blockConfirmations := some 1 }
      else timeoutStep interval maxDuration totalDuration

/-- The polling loop: run `waitTick` on successive observations, threading
`totalDuration`, with explicit fuel. `none` means the loop had not yet
resolved after `fuel` ticks. -/
def waitLoop (confirmations interval maxDuration : ℕ) (obs : ℕ → TickObs) :
    ℕ → ℕ → ℕ → Option TransactionStatus
  | 0, _, _ => none
  | fuel + 1, tick, totalDuration =>
      match waitTick confirmations interval maxDuration totalDuration (obs tick) with
      | .inl st => some st
      | .inr td => waitLoop confirmations interval maxDuration obs fuel (tick + 1) td

/-- `⌈a / b⌉` on naturals. -/
def ceilDiv (a b : ℕ) : ℕ := (a + b - 1) / b

/-- `waitForTransaction` with the fuel at which the timeout branch is
guaranteed to have fired. -/
def waitForTransaction (confirmations maxDuration interval : ℕ) (obs : ℕ → TickObs) :
    Option TransactionStatus :=
  waitLoop confirmations interval maxDuration obs (ceilDiv maxDuration interval) 0 0

theorem le_ceilDiv_mul (a b : ℕ) (hb : 1 ≤ b) : a ≤ ceilDiv a b * b := by
  unfold ceilDiv
  rw [Nat.mul_comm]
  have h1 := Nat.div_add_mod (a + b - 1) b
  have h2 : (a + b - 1) % b < b := Nat.mod_lt _ hb
  omega

theorem ceilDiv_pos (a b : ℕ) (ha : 1 ≤ a) (hb : 1 ≤ b) : 1 ≤ ceilDiv a b := by
  unfold ceilDiv
  rw [Nat.le_div_iff_mul_le hb]
  omega

/-- If a tick does not resolve, it advanced `totalDuration` by `interval`
and the timeout had not yet been reached. -/
theorem waitTick_inr {confirmations interval maxDuration td : ℕ} {o : TickObs} {td' : ℕ}
    (h : waitTick confirmations interval maxDuration td o = .inr td') :
    td' = td + interval ∧ td + interval < maxDuration := by
  cases o with
  | failure msg => simp [waitTick] at h
  | noReceipt =>
      simp only [waitTick, timeoutStep] at h
      split at h
      · simp at h
      · simp at h
        exact ⟨h.symm, by omega⟩
  | receipt r latestBlock =>
      simp only [waitTick, timeoutStep] at h
      split at h
      · split at h
        · split at h
          · simp at h
          · split at h
            · simp at h
            · simp at h
              exact ⟨h.symm, by omega⟩
        · simp at h
      · split at h
        · simp at h
        · simp at h
          exact ⟨h.symm, by omega⟩

/-- Any run of the loop with enough accumulated-duration budget resolves. -/
theorem waitLoop_resolves (confirmations interval maxDuration : ℕ) (obs : ℕ → TickObs) :
    ∀ (fuel tick totalDuration : ℕ), 1 ≤ fuel →
      maxDuration ≤ totalDuration + fuel * interval →
      (waitLoop confirmations interval maxDuration obs fuel tick totalDuration).isSome := by
  intro fuel
  induction fuel with
  | zero => intro tick td h1 _; omega
  | succ f ih =>
      intro tick td _ hbudget
      rw [waitLoop]
      rw [Nat.succ_mul] at hbudget
      rcases hstep : waitTick confirmations interval maxDuration td (obs tick) with st | td'
      · simp
      · obtain ⟨htd, hlt⟩ := waitTick_inr hstep
        have hf : 1 ≤ f := by
          by_contra hf0
          have hf1 : f = 0 := by omega
          subst hf1
          simp at hbudget
          omega
        exact ih (tick + 1) td' hf (by omega)

/-- A trace that never produces a receipt resolves `pending` with the
exceeded-maximum-duration message. -/
theorem waitLoop_noReceipt (confirmations interval maxDuration : ℕ) :
    ∀ (fuel tick totalDuration : ℕ), 1 ≤ fuel →
      maxDuration ≤ totalDuration + fuel * interval →
      waitLoop confirmations interval maxDuration (fun _ => TickObs.noReceipt)
          fuel tick totalDuration
        = some { status := .pending, error := some (exceededMessage maxDuration) } := by
  intro fuel
  induction fuel with
  | zero => intro tick td h1 _; omega
  | succ f ih =>
      intro tick td _ hbudget
      rw [Nat.succ_mul] at hbudget
      rw [waitLoop]
      show (match timeoutStep interval maxDuration td with
            | .inl st => some st
            | .inr td' => waitLoop confirmations interval maxDuration
                (fun _ => TickObs.noReceipt) f (tick + 1) td') = _
      unfold timeoutStep
      by_cases hmax : maxDuration ≤ td + interval
      · simp [hmax]
      · simp only [if_neg hmax]
        have hf : 1 ≤ f := by
          rcases Nat.eq_zero_or_pos f with hf0 | hf0
          · exfalso; rw [hf0] at hbudget; simp at hbudget; omega
          · exact hf0
        exact ih (tick + 1) (td + interval) hf (by omega)

/-- C6: with a positive interval and duration bound, `waitForTransaction`
terminates within `⌈maxDuration / interval⌉` ticks (hence within
`maxDuration + interval` of wall time) and resolves exactly one status, which
is one of `pending`, `confirmed`, `failed`; and on a trace with no receipt it
resolves `pending` with the exceeded-maximum-duration reason. -/
theorem waitForTransaction_terminates (confirmations maxDuration interval : ℕ)
    (obs : ℕ → TickObs) (hi : 1 ≤ interval) (hm : 1 ≤ maxDuration) :
    (∃ st : TransactionStatus,
        waitForTransaction confirmations maxDuration interval obs = some st ∧
          (st.status = .pending ∨ st.status = .confirmed ∨ st.status = .failed)) ∧
    ((∀ t, obs t = TickObs.noReceipt) →
        waitForTransaction confirmations maxDuration interval obs
          = some { status := .pending, error := some (exceededMessage maxDuration) }) := by
  constructor
  · have h := waitLoop_resolves confirmations interval maxDuration obs
      (ceilDiv maxDuration interval) 0 0
      (ceilDiv_pos _ _ hm hi) (by simpa using le_ceilDiv_mul maxDuration interval hi)
    rcases Option.isSome_iff_exists.mp h with ⟨st, hst⟩
    exact ⟨st, hst, by rcases st with ⟨s, _, _, _, _⟩ <;> rcases s <;> simp⟩
  · intro hobs
    have hfun : obs = fun _ => TickObs.noReceipt := funext hobs
    rw [waitForTransaction, hfun]
    exact waitLoop_noReceipt confirmations interval maxDuration
      (ceilDiv maxDuration interval) 0 0
      (ceilDiv_pos _ _ hm hi) (by simpa using le_ceilDiv_mul maxDuration interval hi)

/-- Scenario B: `interval = 5000`, `maxDuration = 15000`, no receipt ever →
`pending` with reason `"Exceeded maximum duration (15 sec) waiting for
transaction"`. -/
theorem waitForTransaction_terminates_witness :
    waitForTransaction 1 15000 5000 (fun _ => TickObs.noReceipt)
      = some { status := .pending,
               error := some "Exceeded maximum duration (15 sec) waiting for transaction" } :=
  (waitForTransaction_terminates 1 15000 5000 (fun _ => TickObs.noReceipt)
    (by norm_num) (by norm_num)).2 (fun _ => rfl)

/-- The receipt used in the C1 counterexample: included in block 5 but with
`success = false` (execution reverted). -/
def failedExecReceipt : UserOpReceipt :=
  { blockNumber := 5, success := false, transactionHash := "0xdeadbeef" }

/-- C1 counterexample: a polled receipt that reports execution failure
(`success = false`) is resolved as `confirmed`, not `failed`, on the first
tick (default `confirmations = 1`, `maxDuration = 30000`, `interval = 5000`).
The claim "the call terminates immediately with a Failed status" is false on
this input. -/
theorem waitForTransaction_failedReceipt_confirmed :
    waitForTransaction 1 30000 5000 (fun _ => TickObs.receipt failedExecReceipt 10)
      = some { status := .confirmed, receipt := some failedExecReceipt,
               blockNumber := some 5, blockConfirmations := some 1 } ∧
    TxStatusKind.confirmed ≠ TxStatusKind.failed := by
  constructor
  · rfl
  · decide

/-- C1 amended: `waitForTransaction` never consults the receipt's `success`
flag.  Whenever the first polled receipt has a truthy `blockNumber` and
`confirmations ≤ 1`, the call resolves `confirmed` — for every value of the
`success` flag, in particular `success = false`. -/
theorem waitForTransaction_ignores_success_flag (confirmations maxDuration interval : ℕ)
    (obs : ℕ → TickObs) (r : UserOpReceipt) (latestBlock : ℕ)
    (hconf : confirmations ≤ 1) (hm : 1 ≤ maxDuration) (hi : 1 ≤ interval)
    (hbn : r.blockNumber ≠ 0) (h0 : obs 0 = TickObs.receipt r latestBlock) :
    waitForTransaction confirmations maxDuration interval obs
      = some { status := .confirmed, receipt := some r,
               blockNumber := some r.blockNumber, blockConfirmations := some 1 } := by
  have hfuel := ceilDiv_pos maxDuration interval hm hi
  rcases Nat.exists_eq_add_of_le hfuel with ⟨f, hf⟩
  rw [waitForTransaction, hf, Nat.add_comm 1 f, waitLoop, h0]
  have hnotlt : ¬ 1 < confirmations := by omega
  simp [waitTick, hbn, hnotlt]

theorem waitForTransaction_ignores_success_flag_witness :
    waitForTransaction 1 30000 5000
        (fun _ => TickObs.receipt failedExecReceipt 10)
      = some { status := .confirmed, receipt := some failedExecReceipt,
               blockNumber := some 5, blockConfirmations := some 1 } :=
  waitForTransaction_ignores_success_flag 1 30000 5000
    (fun _ => TickObs.receipt failedExecReceipt 10) failedExecReceipt 10
    (by norm_num) (by norm_num) (by norm_num) (by decide) rfl

/-! ## Number parsing: JavaScript `parseFloat` and viem `parseUnits`

`parseFloat` values are modelled as exact rationals (plus signed infinity):
the sign and zero-ness of the result — all that the validation code reads —
agree with the IEEE-double semantics except for exponents beyond the double
range, which no modelled code path exercises. -/

/-- A JavaScript number as produced by `parseFloat` on a numeric prefix
(`none` at the call sites models `NaN`). -/
inductive JSNum where
  | finite (q : ℚ)
  | infinite (neg : Bool)
deriving DecidableEq, Repr

/-- `x > 0` on a parsed number. -/
def JSNum.isPos : JSNum → Bool
  | .finite q => decide (0 < q)
  | .infinite neg => !neg

/-- JavaScript `+` on parsed numbers (mixed-sign infinities, which would
give `NaN`, cannot arise after validation and are mapped arbitrarily). -/
def JSNum.add : JSNum → JSNum → JSNum
  | .finite a, .finite b => .finite (a + b)
  | .infinite n, .finite _ => .infinite n
  | .finite _, .infinite n => .infinite n
  | .infinite a, .infinite _ => .infinite a

def digitsToNat (l : List Char) : ℕ :=
  l.foldl (fun acc c => acc * 10 + (c.toNat - '0'.toNat)) 0

/-- JavaScript `toLowerCase()` (ASCII, which is all the compared inputs
use). -/
def strToLower (s : String) : String := ⟨s.data.map Char.toLower⟩

def listStartsWith : List Char → List Char → Bool
  | [], _ => true
  | _ :: _, [] => false
  | p :: ps, c :: cs => p == c && listStartsWith ps cs

/-- The longest-numeric-prefix parse of JavaScript `parseFloat` (after
whitespace skipping): optional sign, `Infinity`, or
`digits [. digits] [(e|E) [sign] digits]` with at least one digit in the
integer or fraction part; an exponent marker without digits is not consumed. -/
def jsParseFloatCore (cs0 : List Char) : Option JSNum :=
  let signNeg : Bool :=
    match cs0 with
    | '-' :: _ => true
    | _ => false
  let cs :=
    match cs0 with
    | '-' :: rest => rest
    | '+' :: rest => rest
    | _ => cs0
  if listStartsWith "Infinity".data cs then some (.infinite signNeg)
  else
    let ipart := cs.takeWhile Char.isDigit
    let cs1 := cs.dropWhile Char.isDigit
    let hasDot : Bool :=
      match cs1 with
      | '.' :: _ => true
      | _ => false
    let afterDot :=
      match cs1 with
      | '.' :: rest => rest
      | _ => cs1
    let fpart := if hasDot then afterDot.takeWhile Char.isDigit else []
    let cs2 := if hasDot then afterDot.dropWhile Char.isDigit else cs1
    if ipart.isEmpty && fpart.isEmpty then none
    else
      let expVal : ℤ :=
        match cs2 with
        | c :: rest =>
            if c == 'e' || c == 'E' then
              let eNeg : Bool :=
                match rest with
                | '-' :: _ => true
                | _ => false
              let rest2 :=
                match rest with
                | '-' :: r => r
                | '+' :: r => r
                | _ => rest
              let edigits := rest2.takeWhile Char.isDigit
              if edigits.isEmpty then 0
              else if eNeg then -(digitsToNat edigits : ℤ) else (digitsToNat edigits : ℤ)
            else 0
        | [] => 0
      let num : ℤ := (digitsToNat ipart * 10 ^ fpart.length + digitsToNat fpart : ℕ)
      let sNum : ℤ := if signNeg then -num else num
      let scaled : ℚ :=
        if 0 ≤ expVal then mkRat (sNum * 10 ^ expVal.toNat) (10 ^ fpart.length)
        else mkRat sNum (10 ^ fpart.length * 10 ^ (-expVal).toNat)
      some (.finite scaled)

/-- JavaScript `parseFloat`. -/
def jsParseFloat (s : String) : Option JSNum :=
  jsParseFloatCore (s.data.dropWhile Char.isWhitespace)

/-- viem `parseUnits` input grammar `^(-?)([0-9]*)\.?([0-9]*)$`: optional
minus sign, integer digits, optional dot, fraction digits, nothing else. -/
def splitDecimalString (value : String) : Option (Bool × List Char × List Char) :=
  let cs0 := value.data
  let neg : Bool :=
    match cs0 with
    | '-' :: _ => true
    | _ => false
  let cs :=
    match cs0 with
    | '-' :: rest => rest
    | _ => cs0
  let ipart := cs.takeWhile Char.isDigit
  let cs1 := cs.dropWhile Char.isDigit
  match cs1 with
  | [] => some (neg, ipart, [])
  | '.' :: rest =>
      let fpart := rest.takeWhile Char.isDigit
      let cs2 := rest.dropWhile Char.isDigit
      if cs2.isEmpty then some (neg, ipart, fpart) else none
  | _ => none

def stripTrailingZeroChars (l : List Char) : List Char :=
  (l.reverse.dropWhile (· == '0')).reverse

/-- The magnitude computed by viem `parseUnits` from the split digit parts:
trailing fraction zeros are stripped, an over-long fraction is rounded
half-up at `decimals` digits, otherwise the fraction is padded. -/
def parseUnitsMag (ipart fpart0 : List Char) (decimals : ℕ) : ℕ :=
  if (stripTrailingZeroChars fpart0).length ≤ decimals then
    digitsToNat ipart * 10 ^ decimals +
      digitsToNat (stripTrailingZeroChars fpart0) *
        10 ^ (decimals - (stripTrailingZeroChars fpart0).length)
  else
    ((digitsToNat ipart * 10 ^ (stripTrailingZeroChars fpart0).length +
        digitsToNat (stripTrailingZeroChars fpart0)) * 10 ^ decimals +
      10 ^ (stripTrailingZeroChars fpart0).length / 2) /
      10 ^ (stripTrailingZeroChars fpart0).length

/-- viem `parseUnits value decimals`: `none` models the thrown
`InvalidDecimalNumberError` on a malformed input.  (The degenerate all-empty
input, accepted by the regex, is mapped to `0`.) -/
def parseUnits (value : String) (decimals : ℕ) : Option ℤ :=
  match splitDecimalString value with
  | none => none
  | some (neg, ipart, fpart0) =>
      some (if neg then -(parseUnitsMag ipart fpart0 decimals : ℤ)
            else (parseUnitsMag ipart fpart0 decimals : ℤ))

/-- viem `parseEther`. -/
def parseEther (value : String) : Option ℤ := parseUnits value 18

/-! ## `getDecimals` and `formatTokenAmount` -/

/-- `getDecimals`: `none` models both a thrown `readContract` and the
explicit `false` for a falsy/zero decimals value — `formatTokenAmount`
treats the two identically. -/
def getDecimals (decimalsRead : Option ℕ) : Option ℕ :=
  match decimalsRead with
  | none => none
  | some d => if d = 0 then none else some d

/-- `formatTokenAmount`: native token parses at 18 decimals; otherwise the
token's decimals are read and used; any failure inside the `try` block falls
back to parsing with an assumed 18 decimals.  `none` models the case where
the fallback parse itself throws. -/
def formatTokenAmount (decimalsRead : Option ℕ) (tokenAddress amount : String) :
    Option String :=
  if tokenAddress == zeroAddress then
    (parseUnits amount 18).map (fun v => toString v)
  else
    match getDecimals decimalsRead with
    | none => (parseUnits amount 18).map (fun v => toString v)
    | some d =>
        match parseUnits amount d with
        | some v => some (toString v)
        | none => (parseUnits amount 18).map (fun v => toString v)

/-- The exact-parse case of `parseUnits`: when the (stripped) fraction fits
into `decimals`, the result is `±(i·10^decimals + f·10^(decimals-fLen))`. -/
theorem parseUnits_exact (value : String) (decimals : ℕ) (neg : Bool)
    (ipart fpart0 : List Char)
    (hsplit : splitDecimalString value = some (neg, ipart, fpart0))
    (hfit : (stripTrailingZeroChars fpart0).length ≤ decimals) :
    parseUnits value decimals
      = some (if neg then
          -((digitsToNat ipart * 10 ^ decimals +
             digitsToNat (stripTrailingZeroChars fpart0) *
               10 ^ (decimals - (stripTrailingZeroChars fpart0).length) : ℕ) : ℤ)
        else
          ((digitsToNat ipart * 10 ^ decimals +
            digitsToNat (stripTrailingZeroChars fpart0) *
              10 ^ (decimals - (stripTrailingZeroChars fpart0).length) : ℕ) : ℤ)) := by
  unfold parseUnits
  rw [hsplit]
  simp [parseUnitsMag, hfit]

/-- C9: for a non-native token whose decimals read fails (throws or returns
a falsy value), `formatTokenAmount` does not propagate an error but falls
back to parsing with 18 assumed decimals; consequently, for a token whose
true decimals `d ≤ 18` accommodate the amount's fraction, the returned
base-unit value is `10^(18-d)` times the correct `parseUnits amount d`
value. -/
theorem formatTokenAmount_fallback_scaled (decimalsRead : Option ℕ)
    (token amount : String) (hnz : (token == zeroAddress) = false)
    (hfail : decimalsRead = none ∨ decimalsRead = some 0) :
    formatTokenAmount decimalsRead token amount
      = (parseUnits amount 18).map (fun v => toString v) ∧
    (∀ (d : ℕ) (neg : Bool) (ipart fpart0 : List Char) (v : ℤ),
        splitDecimalString amount = some (neg, ipart, fpart0) →
        (stripTrailingZeroChars fpart0).length ≤ d → d ≤ 18 →
        parseUnits amount d = some v →
        formatTokenAmount decimalsRead token amount
          = some (toString (v * 10 ^ (18 - d)))) := by
  have hgd : getDecimals decimalsRead = none := by
    rcases hfail with h | h <;> simp [getDecimals, h]
  have hmain : formatTokenAmount decimalsRead token amount
      = (parseUnits amount 18).map (fun v => toString v) := by
    simp only [formatTokenAmount, hnz, Bool.false_eq_true, if_false, hgd]
  refine ⟨hmain, ?_⟩
  intro d neg ipart fpart0 v hsplit hfit hd18 hv
  have hfit18 : (stripTrailingZeroChars fpart0).length ≤ 18 := le_trans hfit hd18
  have hvd := parseUnits_exact amount d neg ipart fpart0 hsplit hfit
  have hv18 := parseUnits_exact amount 18 neg ipart fpart0 hsplit hfit18
  rw [hv] at hvd
  have hveq := Option.some.inj hvd
  have hpow : (digitsToNat ipart * 10 ^ 18
        + digitsToNat (stripTrailingZeroChars fpart0)
            * 10 ^ (18 - (stripTrailingZeroChars fpart0).length) : ℕ)
      = (digitsToNat ipart * 10 ^ d
          + digitsToNat (stripTrailingZeroChars fpart0)
              * 10 ^ (d - (stripTrailingZeroChars fpart0).length)) * 10 ^ (18 - d) := by
    have h1 : (10 : ℕ) ^ 18 = 10 ^ d * 10 ^ (18 - d) := by
      rw [← pow_add]
      congr 1
      omega
    have h2 : (10 : ℕ) ^ (18 - (stripTrailingZeroChars fpart0).length)
        = 10 ^ (d - (stripTrailingZeroChars fpart0).length) * 10 ^ (18 - d) := by
      rw [← pow_add]
      congr 1
      omega
    rw [h1, h2]
    ring
  rw [hmain, hv18]
  have hgoal : (if neg = true then
        -((digitsToNat ipart * 10 ^ 18
            + digitsToNat (stripTrailingZeroChars fpart0)
                * 10 ^ (18 - (stripTrailingZeroChars fpart0).length) : ℕ) : ℤ)
      else ((digitsToNat ipart * 10 ^ 18
            + digitsToNat (stripTrailingZeroChars fpart0)
                * 10 ^ (18 - (stripTrailingZeroChars fpart0).length) : ℕ) : ℤ))
      = v * 10 ^ (18 - d) := by
    rw [hveq]
    cases neg with
    | false =>
        rw [if_neg (show ¬(false = true) by decide), if_neg (show ¬(false = true) by decide)]
        rw [hpow]
        push_cast
        ring
    | true =>
        rw [if_pos rfl, if_pos rfl]
        rw [hpow]
        push_cast
        ring
  rw [hgoal]
  simp

theorem formatTokenAmount_fallback_scaled_witness :
    formatTokenAmount none "0xaaaaaaaaaaaaaaaaaaaaaaaaaaaaaaaaaaaaaaaa" "1.5"
      = some (toString ((1500000 : ℤ) * 10 ^ (18 - 6))) ∧
    parseUnits "1.5" 6 = some 1500000 := by
  constructor
  · exact (formatTokenAmount_fallback_scaled none
      "0xaaaaaaaaaaaaaaaaaaaaaaaaaaaaaaaaaaaaaaaa" "1.5" (by decide) (Or.inl rfl)).2
      6 false ['1'] ['5'] 1500000 (by decide) (by decide) (by decide) (by decide)
  · decide

/-! ## Batch transfer: `validateRecipients`, `createTransferTransactions`,
`disperseTokens` -/

structure Recipient where
  address : String
  amount : String
deriving DecidableEq, Repr

/-- One character class of the address regex `[a-fA-F0-9]`. -/
def isHexDigitChar (c : Char) : Bool :=
  c.isDigit || ('a' ≤ c && c ≤ 'f') || ('A' ≤ c && c ≤ 'F')

/-- The address test `/^0x[a-fA-F0-9]{40}$/.test(addr)`. -/
def isValidAddress (s : String) : Bool :=
  s.length == 42 && (s.take 2 == "0x") && (s.drop 2).data.all isHexDigitChar

/-- The amount test: `parseFloat` it, reject `NaN` and values `≤ 0`. -/
def amountIsValid (s : String) : Bool :=
  match jsParseFloat s with
  | none => false
  | some n => n.isPos

def invalidAddressMsg (i : ℕ) (addr : String) : String :=
  "Invalid address format for recipient " ++ toString (i + 1) ++ ": " ++ addr

def invalidAmountMsg (i : ℕ) (amt : String) : String :=
  "Invalid amount for recipient " ++ toString (i + 1) ++ ": " ++ amt ++
    ". Amount must be a positive number."

/-- The indexed loop body of `validateRecipients`. -/
def validateRecipientsAux : ℕ → List Recipient → Option String
  | _, [] => none
  | i, r :: rs =>
      if !isValidAddress r.address then some (invalidAddressMsg i r.address)
      else if !amountIsValid r.amount then some (invalidAmountMsg i r.amount)
      else validateRecipientsAux (i + 1) rs

/-- `validateRecipients`: first validation error, or `null`. -/
def validateRecipients (rs : List Recipient) : Option String :=
  validateRecipientsAux 0 rs

/-- A produced validation error is the exact template for some recipient of
the list that fails its address or amount check. -/
theorem validateRecipientsAux_mentions :
    ∀ (rs : List Recipient) (k : ℕ) (err : String),
      validateRecipientsAux k rs = some err →
      ∃ i r, rs[i]? = some r ∧
        ((isValidAddress r.address = false ∧ err = invalidAddressMsg (k + i) r.address) ∨
         (amountIsValid r.amount = false ∧ err = invalidAmountMsg (k + i) r.amount)) := by
  intro rs
  induction rs with
  | nil => intro k err h; simp [validateRecipientsAux] at h
  | cons r rs ih =>
      intro k err h
      rw [validateRecipientsAux] at h
      by_cases haddr : isValidAddress r.address
      · by_cases hamt : amountIsValid r.amount
        · rw [if_neg (by simp [haddr]), if_neg (by simp [hamt])] at h
          obtain ⟨i, r', hget, hcase⟩ := ih (k + 1) err h
          refine ⟨i + 1, r', by simpa using hget, ?_⟩
          have : k + 1 + i = k + (i + 1) := by omega
          rw [this] at hcase
          exact hcase
        · rw [if_neg (by simp [haddr]), if_pos (by simp [hamt])] at h
          exact ⟨0, r, by simp, Or.inr ⟨by simpa using hamt, by simpa using h.symm⟩⟩
      · rw [if_pos (by simp [haddr])] at h
        exact ⟨0, r, by simp, Or.inl ⟨by simpa using haddr, by simpa using h.symm⟩⟩

/-- One of the per-recipient transfer transactions built by
`createTransferTransactions` (the ERC-20 `transfer(to, amount)` calldata is
represented structurally). -/
inductive DisperseTx where
  | ethTransfer (toAddr : String) (value : ℤ)
  | erc20Transfer (token toAddr : String) (amount : ℤ)
deriving DecidableEq, Repr

/-- The message of viem's `InvalidDecimalNumberError` (version suffix
omitted). -/
def invalidDecimalNumberMsg (value : String) : String :=
  "Number `" ++ value ++ "` is not a valid decimal number."

/-- The per-recipient transaction-building loop; the first recipient whose
amount fails to parse aborts the whole construction (a thrown error). -/
def buildTxs (mk : Recipient → Except String DisperseTx) :
    List Recipient → Except String (List DisperseTx)
  | [] => .ok []
  | r :: rs =>
      match mk r with
      | .error e => .error e
      | .ok tx =>
          match buildTxs mk rs with
          | .error e => .error e
          | .ok txs => .ok (tx :: txs)

/-- `createTransferTransactions`: native transfers via `parseEther`, ERC-20
transfers via a single `decimals` read (`0` falls back to 18 through the
`(decimals as number) || 18` truthiness) and `parseUnits`. -/
def createTransferTransactions (decimalsRead : Except String ℕ)
    (recipients : List Recipient) (tokenAddress : String) (isEth : Bool) :
    Except String (List DisperseTx) :=
  if isEth then
    buildTxs (fun r =>
      match parseEther r.amount with
      | some v => .ok (.ethTransfer r.address v)
      | none => .error (invalidDecimalNumberMsg r.amount)) recipients
  else
    match decimalsRead with
    | .error e => .error e
    | .ok d =>
        buildTxs (fun r =>
          match parseUnits r.amount (if d = 0 then 18 else d) with
          | some v => .ok (.erc20Transfer tokenAddress r.address v)
          | none => .error (invalidDecimalNumberMsg r.amount)) recipients

theorem buildTxs_length (mk : Recipient → Except String DisperseTx) :
    ∀ (rs : List Recipient) (txs : List DisperseTx),
      buildTxs mk rs = .ok txs → txs.length = rs.length := by
  intro rs
  induction rs with
  | nil => intro txs h; simp [buildTxs] at h; simp [← h]
  | cons r rs ih =>
      intro txs h
      rw [buildTxs] at h
      rcases hmk : mk r with e | tx <;> rw [hmk] at h
      · simp at h
      · rcases hrec : buildTxs mk rs with e | txs' <;> rw [hrec] at h
        · simp at h
        · simp at h
          rw [← h]
          simp [ih txs' hrec]

/-- The result line for one recipient's submission. -/
def transferLine (isEth : Bool) (r : Recipient) (resp : TransactionResponse) : String :=
  if resp.success then
    "✅ " ++ r.address ++ ": " ++ r.amount ++ " " ++ (if isEth then "ETH" else "tokens")
      ++ " - " ++ optionStr resp.txHash
  else
    "❌ " ++ r.address ++ ": " ++ r.amount ++ " " ++ (if isEth then "ETH" else "tokens")
      ++ " - FAILED: " ++ resp.error.getD "Unknown error"

/-- Accumulated execution state of the sequential submission loop. -/
structure ExecResult where
  subs : List DisperseTx
  lines : List String
  succCount : ℕ
  failCount : ℕ
deriving DecidableEq, Repr

/-- The sequential submission loop: one `sendTransaction` per recipient, a
failure recorded and the loop continued. -/
def executeTransfers (outc : ℕ → SendOutcome) (isEth : Bool) :
    ℕ → List (Recipient × DisperseTx) → ExecResult
  | _, [] => ⟨[], [], 0, 0⟩
  | i, (r, tx) :: rest =>
      let resp := sendTransactionModel (outc i)
      let tail := executeTransfers outc isEth (i + 1) rest
      ⟨tx :: tail.subs, transferLine isEth r resp :: tail.lines,
       if resp.success then tail.succCount + 1 else tail.succCount,
       if resp.success then tail.failCount else tail.failCount + 1⟩

theorem executeTransfers_subs (outc : ℕ → SendOutcome) (isEth : Bool) :
    ∀ (pairs : List (Recipient × DisperseTx)) (i : ℕ),
      (executeTransfers outc isEth i pairs).subs = pairs.map Prod.snd := by
  intro pairs
  induction pairs with
  | nil => intro i; rfl
  | cons p rest ih =>
      intro i
      rcases p with ⟨r, tx⟩
      simp [executeTransfers, ih]

theorem executeTransfers_lines_length (outc : ℕ → SendOutcome) (isEth : Bool) :
    ∀ (pairs : List (Recipient × DisperseTx)) (i : ℕ),
      (executeTransfers outc isEth i pairs).lines.length = pairs.length := by
  intro pairs
  induction pairs with
  | nil => intro i; rfl
  | cons p rest ih =>
      intro i
      rcases p with ⟨r, tx⟩
      simp [executeTransfers, ih]

theorem executeTransfers_counts (outc : ℕ → SendOutcome) (isEth : Bool) :
    ∀ (pairs : List (Recipient × DisperseTx)) (i : ℕ),
      (executeTransfers outc isEth i pairs).succCount
        + (executeTransfers outc isEth i pairs).failCount = pairs.length := by
  intro pairs
  induction pairs with
  | nil => intro i; rfl
  | cons p rest ih =>
      intro i
      rcases p with ⟨r, tx⟩
      have h := ih (i + 1)
      rcases houtc : outc i with uh | ⟨uh, er⟩ | m <;>
        simp [executeTransfers, houtc, sendTransactionModel] <;> omega

theorem executeTransfers_lines_get (outc : ℕ → SendOutcome) (isEth : Bool) :
    ∀ (pairs : List (Recipient × DisperseTx)) (i j : ℕ) (r : Recipient) (tx : DisperseTx),
      pairs[j]? = some (r, tx) →
      (executeTransfers outc isEth i pairs).lines[j]?
        = some (transferLine isEth r (sendTransactionModel (outc (i + j)))) := by
  intro pairs
  induction pairs with
  | nil => intro i j r tx h; simp at h
  | cons p rest ih =>
      intro i j r tx h
      rcases p with ⟨r', tx'⟩
      cases j with
      | zero =>
          simp at h
          simp [executeTransfers, h.1]
      | succ j =>
          simp at h
          have hrec := ih (i + 1) j r tx h
          have harith : i + 1 + j = i + (j + 1) := by omega
          rw [harith] at hrec
          simp [executeTransfers, hrec]

/-- The running float total `recipients.reduce((sum, r) => sum +
parseFloat(r.amount), 0)` (a `NaN` contribution cannot arise after
validation and is skipped). -/
def totalAmountValue (rs : List Recipient) : JSNum :=
  rs.foldl (fun acc r =>
    match jsParseFloat r.amount with
    | some n => acc.add n
    | none => acc) (.finite 0)

/-- Decimal rendering of a rational, standing in for JavaScript number
printing (exact for integers; float rounding artifacts are not modelled).
It only appears inside the summary text, which no claim inspects. -/
def ratDecimalString (q : ℚ) : String :=
  if q.den = 1 then toString q.num
  else toString q.num ++ "/" ++ toString q.den

def jsNumToString : JSNum → String
  | .infinite true => "-Infinity"
  | .infinite false => "Infinity"
  | .finite q => ratDecimalString q

/-- `Array.prototype.join("\n")`. -/
def joinLines : List String → String
  | [] => ""
  | [l] => l
  | l :: rest => l ++ "\n" ++ joinLines rest

/-- The summary block assembled by `disperseTokens` after the loop. -/
def disperseSummary (recipientCount succCount failCount : ℕ) (totalAmountStr : String)
    (isEth : Bool) (tokenType : String) (results : List String) : String :=
  joinLines
    (["🚀 Gasless Batch Transfer Completed!", "", "📊 Summary:",
      "• Total Recipients: " ++ toString recipientCount,
      "• Successful Transfers: " ++ toString succCount,
      "• Failed Transfers: " ++ toString failCount,
      "• Total Amount Distributed: " ++ totalAmountStr ++ " "
        ++ (if isEth then "ETH" else "tokens"),
      "• Token Type: " ++ tokenType, "", "📝 Transfer Details:"]
      ++ results
      ++ (if 0 < failCount then
            ["", "⚠️ Note: " ++ toString failCount
              ++ " transfer(s) failed. Please check recipient addresses and account balances."]
          else []))

structure DisperseArgs where
  recipients : List Recipient
  tokenAddress : String
deriving DecidableEq, Repr

structure DisperseEnv where
  decimalsRead : Except String ℕ
  sendOutcome : ℕ → SendOutcome

/-- `disperseTokens`: all-or-nothing validation, transaction construction,
then one independent sequential submission per recipient with an itemized
summary.  The second component is the list of submitted transactions. -/
def disperseTokens (env : DisperseEnv) (args : DisperseArgs) : String × List DisperseTx :=
  match validateRecipients args.recipients with
  | some err => ("Validation error: " ++ err, [])
  | none =>
      let isEth := strToLower args.tokenAddress == "eth"
      let tokenType :=
        if isEth then "ETH" else "tokens from contract " ++ args.tokenAddress
      match createTransferTransactions env.decimalsRead args.recipients
          args.tokenAddress isEth with
      | .error e => ("Error executing batch transfer: " ++ e, [])
      | .ok txs =>
          let res := executeTransfers env.sendOutcome isEth 0 (args.recipients.zip txs)
          (disperseSummary args.recipients.length res.succCount res.failCount
            (jsNumToString (totalAmountValue args.recipients)) isEth tokenType res.lines,
           res.subs)

theorem createTransferTransactions_length (decimalsRead : Except String ℕ)
    (recipients : List Recipient) (tokenAddress : String) (isEth : Bool)
    (txs : List DisperseTx)
    (h : createTransferTransactions decimalsRead recipients tokenAddress isEth = .ok txs) :
    txs.length = recipients.length := by
  unfold createTransferTransactions at h
  split at h
  · exact buildTxs_length _ _ _ h
  · rcases hd : decimalsRead with e | dcm <;> rw [hd] at h
    · exact Except.noConfusion h
    · exact buildTxs_length _ _ _ h

/-- C5 counterexample: the recipient amount `"1x"` passes validation
(`parseFloat("1x") = 1 > 0`) yet `parseEther` rejects it, so the batch
aborts with zero submissions even though all recipients passed validation —
refuting "if all recipients pass validation, one submission is attempted per
recipient". -/
def c5Recipient : Recipient :=
  ⟨"0xaaaaaaaaaaaaaaaaaaaaaaaaaaaaaaaaaaaaaaaa", "1x"⟩

def c5Env : DisperseEnv := ⟨.ok 18, fun _ => .accepted "0xop"⟩

theorem disperse_validated_but_zero_submissions :
    validateRecipients [c5Recipient] = none ∧
    (disperseTokens c5Env ⟨[c5Recipient], "eth"⟩).2 = [] ∧
    ([c5Recipient] : List Recipient).length = 1 := by
  refine ⟨by decide, ?_, rfl⟩
  decide

/-- C5 amended: if any recipient fails validation, zero transactions are
submitted and the returned message is the validation-error template of a
failing entry (mentioning its address or amount); if all recipients pass
validation **and the per-recipient transactions build successfully** (every
amount is a well-formed decimal-number string and, for ERC-20, the decimals
read succeeds), then exactly one submission per recipient happens, the
submitted list is independent of the per-recipient outcomes (a failure for
recipient `i` does not prevent `i+1..n`), and an itemized per-recipient
summary with aggregate totals is returned. -/
theorem disperse_validation_gate_and_partial_execution (env : DisperseEnv)
    (args : DisperseArgs) :
    (∀ err, validateRecipients args.recipients = some err →
        disperseTokens env args = ("Validation error: " ++ err, []) ∧
        ∃ i r, args.recipients[i]? = some r ∧
          ((isValidAddress r.address = false ∧ err = invalidAddressMsg i r.address) ∨
           (amountIsValid r.amount = false ∧ err = invalidAmountMsg i r.amount))) ∧
    (∀ txs, validateRecipients args.recipients = none →
        createTransferTransactions env.decimalsRead args.recipients args.tokenAddress
            (strToLower args.tokenAddress == "eth") = .ok txs →
        (disperseTokens env args).2 = txs ∧
        txs.length = args.recipients.length ∧
        (∀ outc' : ℕ → SendOutcome,
            (disperseTokens ⟨env.decimalsRead, outc'⟩ args).2 = txs) ∧
        (disperseTokens env args).1
          = disperseSummary args.recipients.length
              (executeTransfers env.sendOutcome (strToLower args.tokenAddress == "eth") 0
                (args.recipients.zip txs)).succCount
              (executeTransfers env.sendOutcome (strToLower args.tokenAddress == "eth") 0
                (args.recipients.zip txs)).failCount
              (jsNumToString (totalAmountValue args.recipients))
              (strToLower args.tokenAddress == "eth")
              (if strToLower args.tokenAddress == "eth" then "ETH"
               else "tokens from contract " ++ args.tokenAddress)
              (executeTransfers env.sendOutcome (strToLower args.tokenAddress == "eth") 0
                (args.recipients.zip txs)).lines ∧
        (executeTransfers env.sendOutcome (strToLower args.tokenAddress == "eth") 0
            (args.recipients.zip txs)).lines.length = args.recipients.length ∧
        (executeTransfers env.sendOutcome (strToLower args.tokenAddress == "eth") 0
            (args.recipients.zip txs)).succCount
          + (executeTransfers env.sendOutcome (strToLower args.tokenAddress == "eth") 0
              (args.recipients.zip txs)).failCount = args.recipients.length ∧
        (∀ j r tx, (args.recipients.zip txs)[j]? = some (r, tx) →
            (executeTransfers env.sendOutcome (strToLower args.tokenAddress == "eth") 0
                (args.recipients.zip txs)).lines[j]?
              = some (transferLine (strToLower args.tokenAddress == "eth") r
                  (sendTransactionModel (env.sendOutcome j))))) := by
  constructor
  · intro err h
    constructor
    · simp [disperseTokens, h]
    · obtain ⟨i, r, hget, hcase⟩ := validateRecipientsAux_mentions args.recipients 0 err h
      exact ⟨i, r, hget, by simpa using hcase⟩
  · intro txs hval hbuild
    have hlen : txs.length = args.recipients.length :=
      createTransferTransactions_length _ _ _ _ _ hbuild
    have hziplen : (args.recipients.zip txs).length = args.recipients.length := by
      rw [List.length_zip, hlen, Nat.min_self]
    have hsubs : ∀ outc' : ℕ → SendOutcome,
        (disperseTokens ⟨env.decimalsRead, outc'⟩ args).2 = txs := by
      intro outc'
      simp only [disperseTokens, hval, hbuild]
      rw [executeTransfers_subs]
      exact List.map_snd_zip _ _ (le_of_eq hlen)
    refine ⟨hsubs env.sendOutcome, hlen, hsubs, ?_, ?_, ?_, ?_⟩
    · simp only [disperseTokens, hval, hbuild]
    · rw [executeTransfers_lines_length, hziplen]
    · rw [executeTransfers_counts, hziplen]
    · intro j r tx hj
      have h := executeTransfers_lines_get env.sendOutcome
        (strToLower args.tokenAddress == "eth") (args.recipients.zip txs) 0 j r tx hj
      simpa using h

theorem disperse_validation_gate_witness :
    disperseTokens c5Env
        ⟨[⟨"0xaaaaaaaaaaaaaaaaaaaaaaaaaaaaaaaaaaaaaaaa", "-1"⟩], "eth"⟩
      = ("Validation error: "
          ++ invalidAmountMsg 0 "-1", []) ∧
    (disperseTokens c5Env
        ⟨[⟨"0xaaaaaaaaaaaaaaaaaaaaaaaaaaaaaaaaaaaaaaaa", "2"⟩], "eth"⟩).2
      = [.ethTransfer "0xaaaaaaaaaaaaaaaaaaaaaaaaaaaaaaaaaaaaaaaa" 2000000000000000000] := by
  constructor
  · exact ((disperse_validation_gate_and_partial_execution c5Env
      ⟨[⟨"0xaaaaaaaaaaaaaaaaaaaaaaaaaaaaaaaaaaaaaaaa", "-1"⟩], "eth"⟩).1
      (invalidAmountMsg 0 "-1") (by decide)).1
  · exact ((disperse_validation_gate_and_partial_execution c5Env
      ⟨[⟨"0xaaaaaaaaaaaaaaaaaaaaaaaaaaaaaaaaaaaaaaaa", "2"⟩], "eth"⟩).2
      [.ethTransfer "0xaaaaaaaaaaaaaaaaaaaaaaaaaaaaaaaaaaaaaaaa" 2000000000000000000]
      (by decide) (by rfl)).1

/-! ## Bridge orchestrator: `smartBridge` of the deBridge action

The two quote HTTP calls, the allowance reads and the submissions are
supplied by a `BridgeEnv`; `smartBridge` returns the result string together
with the ordered list of externally visible events (quote requests, approval
submissions, transaction submissions). -/

/-- JavaScript truthiness of an optional string field. -/
def optStrTruthy : Option String → Bool
  | some s => !s.data.isEmpty
  | none => false

/-- JavaScript truthiness of an optional numeric field. -/
def optNatTruthy : Option ℕ → Bool
  | some n => n != 0
  | none => false

/-- JavaScript `a || b` for an optional string `a`. -/
def jsOrStr (o : Option String) (dflt : String) : String :=
  match o with
  | some s => if s.data.isEmpty then dflt else s
  | none => dflt

def listContainsSublist (pat : List Char) : List Char → Bool
  | [] => pat.isEmpty
  | c :: cs => listStartsWith pat (c :: cs) || listContainsSublist pat cs

/-- JavaScript `s.includes(pat)`. -/
def containsSubstr (s pat : String) : Bool := listContainsSublist pat.data s.data

/-- `toFixed`-style rendering of `wei / 1e18` (exact rational rendering
stands in for the float; only used inside informational message text). -/
def toFixedDecimalString (wei : ℕ) (prec : ℕ) : String :=
  let scaled := (wei * 10 ^ prec + 5 * 10 ^ 17) / 10 ^ 18
  let fr := toString (scaled % 10 ^ prec)
  toString (scaled / 10 ^ prec) ++ "."
    ++ String.mk (List.replicate (prec - fr.length) '0') ++ fr

/-- `formatBigIntToEth` of the bridge action. -/
def formatBigIntToEth (wei : ℕ) : String :=
  if wei = 0 then "0"
  else
    toFixedDecimalString wei
      (if wei < 10 ^ 14 then 8 else if wei < 10 ^ 16 then 6 else 4)

/-- The query parameters of the deBridge `create-tx` request (built once and
reused verbatim for the second request). -/
structure DebridgeParams where
  srcChainId : ℕ
  dstChainId : ℕ
  srcChainTokenIn : String
  srcChainTokenInAmount : String
  dstChainTokenOut : String
  dstChainTokenOutRecipient : String
  slippage : String
  senderAddress : String
  srcChainOrderAuthorityAddress : String
  dstChainOrderAuthorityAddress : String
  referralCode : String
deriving DecidableEq, Repr

/-- The `tx` object of a deBridge quote response: either executable
(`to`/`data`/`value`) or a preliminary-approval requirement
(`allowanceTarget`/`allowanceValue`). -/
structure BridgeTx where
  toAddr : Option String := none
  dataHex : Option String := none
  value : Option ℕ := none
  allowanceTarget : Option String := none
  allowanceValue : Option ℕ := none
deriving DecidableEq, Repr

/-- The estimation fields read for user-facing text. -/
structure BridgeEstimation where
  srcSymbol : Option String := none
  dstSymbol : Option String := none
  dstAmount : Option String := none
  recommendedSlippage : Option String := none
deriving DecidableEq, Repr

/-- One deBridge HTTP response as the flow reads it. -/
structure BridgeQuote where
  ok : Bool := true
  statusCode : ℕ := 200
  errorDetail : String := ""
  tx : Option BridgeTx := none
  estimation : Option BridgeEstimation := none
  fixFee : Option ℕ := none
deriving DecidableEq, Repr

/-- Environment of one `smartBridge` invocation: the wallet chain id, the
sender address, the formatted amount (`.error` = `formatTokenAmount` threw),
the two quote responses (`.error` = the fetch threw), the two allowance
flows and the final submission outcome. -/
structure BridgeEnv where
  chainId : Option ℕ
  senderAddress : String
  formattedAmount : Except String ℕ
  quote1 : Except String BridgeQuote
  quote2 : Except String BridgeQuote
  prelimAllowance : AllowanceEnv
  mainAllowance : AllowanceEnv
  bridgeSend : SendOutcome
deriving Repr

structure SmartBridgeArgs where
  fromChainId : ℕ
  toChainId : ℕ
  tokenInAddress : String
  tokenOutAddress : String
  amount : String
  recipientAddress : Option String := none
  slippage : String := "1"
  approveMax : Bool := false
  payProtocolFee : Bool := true
deriving DecidableEq, Repr

/-- Externally visible events of a bridge invocation, in order. -/
inductive BridgeEvent where
  | quoteRequest (params : DebridgeParams)
  | approvalSubmit (a : ApprovalTx)
  | txSubmit (toAddr dataHex : String) (value : ℕ)
deriving DecidableEq, Repr

/-- The `URLSearchParams` content of the `create-tx` request. -/
def mkDebridgeParams (args : SmartBridgeArgs) (formattedAmount : ℕ)
    (senderAddress recipient : String) : DebridgeParams :=
  { srcChainId := args.fromChainId, dstChainId := args.toChainId,
    srcChainTokenIn := args.tokenInAddress,
    srcChainTokenInAmount := toString formattedAmount,
    dstChainTokenOut := args.tokenOutAddress,
    dstChainTokenOutRecipient := recipient,
    slippage := args.slippage, senderAddress := senderAddress,
    srcChainOrderAuthorityAddress := senderAddress,
    dstChainOrderAuthorityAddress := recipient, referralCode := "31676" }

/-- The sequential `nativeFeeAmount` updates of the fee-detection block. -/
def computeNativeFee (fixFee : Option ℕ) (txValue : Option ℕ) : ℕ :=
  let f1 : ℕ := if optNatTruthy fixFee then fixFee.getD 0 else 0
  if optNatTruthy txValue then
    let v := txValue.getD 0
    let f2 := if !optNatTruthy fixFee && v != 0 then v else f1
    if optNatTruthy fixFee && f2 != 0 && v != f2 then v else f2
  else f1

/-- The `protocolFeeInfo` string assembled alongside the fee detection. -/
def protocolFeeInfoStr (fixFee : Option ℕ) (txValue : Option ℕ) : String :=
  let s1 :=
    if optNatTruthy fixFee then
      "deBridge protocol fee: " ++ formatBigIntToEth (fixFee.getD 0) ++ " native currency"
    else ""
  if optNatTruthy txValue then
    if !optNatTruthy fixFee && (txValue.getD 0) != 0 then
      "deBridge protocol fee (from tx.value): " ++ formatBigIntToEth (txValue.getD 0)
        ++ " native currency"
    else s1
  else s1

/-- The first-request error classification of the flow. -/
def quoteErrorMsg (q : BridgeQuote) : String :=
  if containsSubstr (strToLower q.errorDetail) "minimum trade amount is" then
    "Error from Debridge API: " ++ q.errorDetail ++ ". The amount might be too small."
  else if containsSubstr (strToLower q.errorDetail) "can not estimate with 0 amount" then
    "Error from Debridge API: " ++ q.errorDetail
      ++ ". The input amount seems to be zero after formatting."
  else
    "Error from Debridge API (" ++ toString q.statusCode ++ "): " ++ q.errorDetail

/-- The diagnostic checklist appended to a reverted submission. -/
def revertChecklist (tokenInAddress : String) (nativeFeeAmount : ℕ)
    (srcSymbolOrToken : String) : String :=
  "\n\nThis may be due to one of the following issues:\n1. Insufficient token allowance for the deBridge contract to spend "
    ++ tokenInAddress
    ++ ".\n2. Insufficient NATIVE currency balance in the smart account to cover the deBridge protocol fee (if payProtocolFee is true). Current fee: "
    ++ (if nativeFeeAmount ≠ 0 then formatBigIntToEth nativeFeeAmount ++ " native currency."
        else "(not detected or set to 0).")
    ++ "\n3. Insufficient underlying " ++ srcSymbolOrToken
    ++ " balance.\n4. Issues with the paymaster or bundler (e.g., account not funded with paymaster, or network congestion).\n5. If a pre-swap to a reserve asset was involved, there might have been issues with that internal swap."

/-- The success report of a submitted bridge transaction. -/
def bridgeSuccessMsg (args : SmartBridgeArgs) (est : BridgeEstimation)
    (recipient : String) (resp : TransactionResponse) (protocolFeeInfo : String)
    (nativeFeeAmount : ℕ) : String :=
  let base := "Bridge transaction submitted successfully!\nSource Tx Hash: "
    ++ optionStr resp.txHash
    ++ "\nSending: " ++ args.amount ++ " " ++ jsOrStr est.srcSymbol args.tokenInAddress
    ++ " (from chain " ++ toString args.fromChainId
    ++ ")\nEst. Receiving: " ++ jsOrStr est.dstAmount "Unknown" ++ " "
    ++ jsOrStr est.dstSymbol args.tokenOutAddress
    ++ " (on chain " ++ toString args.toChainId
    ++ ")\nRecipient: " ++ recipient
    ++ "\nSlippage: " ++ jsOrStr est.recommendedSlippage args.slippage ++ "%"
  let base2 :=
    if protocolFeeInfo.data.isEmpty then base
    else if args.payProtocolFee && nativeFeeAmount != 0 then
      base ++ "\n" ++ protocolFeeInfo ++ " (included in transaction)"
    else if nativeFeeAmount != 0 then
      base ++ "\n" ++ protocolFeeInfo
        ++ " (detected, but EXCLUDED from transaction as payProtocolFee is false)"
    else base
  base2 ++ "\nNote: Actual received amount may vary. Check the order status via Debridge for updates."

/-- Steps 5–7 of the flow, shared between the no-retry and the post-retry
paths: fee detection, main allowance (always `approveMax = true`), value
override per `payProtocolFee`, submission, and the success/failure report. -/
def finishBridge (env : BridgeEnv) (args : SmartBridgeArgs) (q : BridgeQuote)
    (formattedAmount : ℕ) (recipient : String) (ev : List BridgeEvent) :
    String × List BridgeEvent :=
  let finalTx := q.tx.getD {}
  let est := q.estimation.getD {}
  let nativeFeeAmount := computeNativeFee q.fixFee finalTx.value
  let protocolFeeInfo := protocolFeeInfoStr q.fixFee finalTx.value
  let spenderAddress := optionStr finalTx.toAddr
  let apr := checkAndApproveTokenAllowance env.mainAllowance args.tokenInAddress
      spenderAddress formattedAmount true
  if apr.1.success = false then
    ("Failed to approve token spending for " ++ args.tokenInAddress
      ++ " to main contract " ++ spenderAddress ++ ": " ++ optionStr apr.1.error,
     ev ++ apr.2.map BridgeEvent.approvalSubmit)
  else
    let transactionValue := if args.payProtocolFee then nativeFeeAmount else 0
    let resp := sendTransactionModel env.bridgeSend
    let ev2 := ev ++ apr.2.map BridgeEvent.approvalSubmit
      ++ [BridgeEvent.txSubmit (optionStr finalTx.toAddr) (jsOrStr finalTx.dataHex "0x")
            transactionValue]
    if resp.success = false then
      let errorMessage := optionStr resp.error
      ("Bridge transaction failed: "
        ++ (if containsSubstr errorMessage "execution reverted"
              || containsSubstr errorMessage "missing response" then
              errorMessage ++ revertChecklist args.tokenInAddress nativeFeeAmount
                (jsOrStr est.srcSymbol args.tokenInAddress)
            else errorMessage), ev2)
    else
      (bridgeSuccessMsg args est recipient resp protocolFeeInfo nativeFeeAmount, ev2)

/-- `secondApiResponseData.tx && secondApiResponseData.tx.to` — the
executability test applied to the second response. -/
def quoteHasExecutableTx (q : BridgeQuote) : Bool :=
  match q.tx with
  | none => false
  | some t => optStrTruthy t.toAddr

def formatErrorMsg (tokenInAddress errMsg : String) : String :=
  "Error: Could not format token amount for " ++ tokenInAddress
    ++ ". Ensure it\x27s a valid token address and you have balance. Error: " ++ errMsg

/-- `smartBridge`: chain check, amount formatting, first quote request,
conditional preliminary approval + one identical re-quote, then the shared
approval/submission tail. -/
def smartBridge (env : BridgeEnv) (args : SmartBridgeArgs) :
    String × List BridgeEvent :=
  match env.chainId with
  | none => ("Error: Unable to determine the current chain ID from the wallet.", [])
  | some currentChainId =>
      if currentChainId ≠ args.fromChainId then
        ("Error: Wallet is connected to chain " ++ toString currentChainId
          ++ ", but the \x27fromChainId\x27 is " ++ toString args.fromChainId
          ++ ". Please ensure the wallet is on the correct source chain.", [])
      else
        let recipient := jsOrStr args.recipientAddress env.senderAddress
        match env.formattedAmount with
        | .error e => (formatErrorMsg args.tokenInAddress e, [])
        | .ok formattedAmount =>
            let params := mkDebridgeParams args formattedAmount env.senderAddress recipient
            match env.quote1 with
            | .error m => ("Error calling Debridge API: " ++ m, [.quoteRequest params])
            | .ok q1 =>
                if q1.ok = false then (quoteErrorMsg q1, [.quoteRequest params])
                else
                  match q1.tx with
                  | none =>
                      ("Error: Debridge API response is incomplete. Missing transaction data.",
                       [.quoteRequest params])
                  | some tx1 =>
                      if optStrTruthy tx1.allowanceTarget
                          && optNatTruthy tx1.allowanceValue then
                        let target := tx1.allowanceTarget.getD ""
                        let apr := checkAndApproveTokenAllowance env.prelimAllowance
                            args.tokenInAddress target (tx1.allowanceValue.getD 0) true
                        let ev0 := BridgeEvent.quoteRequest params
                            :: apr.2.map BridgeEvent.approvalSubmit
                        if apr.1.success = false then
                          ("Failed to approve preliminary token spending for "
                            ++ args.tokenInAddress ++ " to " ++ target ++ ": "
                            ++ optionStr apr.1.error, ev0)
                        else
                          let ev1 := ev0 ++ [BridgeEvent.quoteRequest params]
                          match env.quote2 with
                          | .error m =>
                              ("Error calling Debridge API after preliminary approval: "
                                ++ m, ev1)
                          | .ok q2 =>
                              if q2.ok = false then
                                ("Error from Debridge API on second call ("
                                  ++ toString q2.statusCode ++ "): " ++ q2.errorDetail, ev1)
                              else if quoteHasExecutableTx q2 = false then
                                  ("Error: Debridge API response after preliminary approval is still incomplete. Missing proper transaction data.",
                                   ev1)
                                else
                                  finishBridge env args q2 formattedAmount recipient ev1
                      else
                        finishBridge env args q1 formattedAmount recipient
                          [.quoteRequest params]

def isQuoteRequest : BridgeEvent → Bool
  | .quoteRequest _ => true
  | _ => false

/-- Number of quote HTTP requests among the events of an invocation. -/
def countQuoteRequests (evs : List BridgeEvent) : ℕ :=
  (evs.filter isQuoteRequest).length

theorem countQuote_append (a b : List BridgeEvent) :
    countQuoteRequests (a ++ b) = countQuoteRequests a + countQuoteRequests b := by
  simp [countQuoteRequests]

theorem countQuote_approvals (l : List ApprovalTx) :
    countQuoteRequests (l.map BridgeEvent.approvalSubmit) = 0 := by
  induction l with
  | nil => rfl
  | cons a t ih =>
      simp only [List.map_cons]
      rw [show (BridgeEvent.approvalSubmit a :: t.map BridgeEvent.approvalSubmit)
            = [BridgeEvent.approvalSubmit a] ++ t.map BridgeEvent.approvalSubmit from rfl,
        countQuote_append, ih]
      rfl

theorem countQuote_single_submit (t d : String) (v : ℕ) :
    countQuoteRequests [BridgeEvent.txSubmit t d v] = 0 := by
  simp [countQuoteRequests, isQuoteRequest]

theorem countQuote_single_quote (p : DebridgeParams) :
    countQuoteRequests [BridgeEvent.quoteRequest p] = 1 := by
  simp [countQuoteRequests, isQuoteRequest]

theorem countQuote_nil : countQuoteRequests [] = 0 := rfl

theorem countQuote_cons_quote (p : DebridgeParams) (l : List BridgeEvent) :
    countQuoteRequests (BridgeEvent.quoteRequest p :: l) = countQuoteRequests l + 1 := by
  simp [countQuoteRequests, isQuoteRequest, List.filter]

/-- `finishBridge` performs no quote request: it only appends approval and
transaction submissions to the event log. -/
theorem finishBridge_countQuote (env : BridgeEnv) (args : SmartBridgeArgs)
    (q : BridgeQuote) (formattedAmount : ℕ) (recipient : String)
    (ev : List BridgeEvent) :
    countQuoteRequests (finishBridge env args q formattedAmount recipient ev).2
      = countQuoteRequests ev := by
  unfold finishBridge
  by_cases h1 : (checkAndApproveTokenAllowance env.mainAllowance args.tokenInAddress
      (optionStr ((q.tx.getD {}).toAddr)) formattedAmount true).1.success = false
  · rw [if_pos h1]
    simp [countQuote_append, countQuote_approvals]
  · rw [if_neg h1]
    by_cases h2 : (sendTransactionModel env.bridgeSend).success = false
    · rw [if_pos h2]
      simp [countQuote_append, countQuote_approvals, countQuote_single_submit,
        countQuoteRequests, isQuoteRequest]
    · rw [if_neg h2]
      simp [countQuote_append, countQuote_approvals, countQuote_single_submit,
        countQuoteRequests, isQuoteRequest]

/-- C2: every invocation of the bridge flow issues at most two quote
requests; and when the conditional retry happens but the second response
still lacks an executable transaction (`tx.to` not truthy), the flow returns
the incomplete-quote error message after exactly two quote requests — it
never issues a third. -/
theorem smartBridge_bounded_quote_requests (env : BridgeEnv) (args : SmartBridgeArgs) :
    countQuoteRequests (smartBridge env args).2 ≤ 2 ∧
    (∀ (fa : ℕ) (q1 : BridgeQuote) (tx1 : BridgeTx) (q2 : BridgeQuote),
        env.chainId = some args.fromChainId →
        env.formattedAmount = .ok fa →
        env.quote1 = .ok q1 → q1.ok = true → q1.tx = some tx1 →
        (optStrTruthy tx1.allowanceTarget && optNatTruthy tx1.allowanceValue) = true →
        (checkAndApproveTokenAllowance env.prelimAllowance args.tokenInAddress
            (tx1.allowanceTarget.getD "") (tx1.allowanceValue.getD 0) true).1.success
          = true →
        env.quote2 = .ok q2 → q2.ok = true →
        quoteHasExecutableTx q2 = false →
        (smartBridge env args).1
          = "Error: Debridge API response after preliminary approval is still incomplete. Missing proper transaction data." ∧
        countQuoteRequests (smartBridge env args).2 = 2) := by
  constructor
  · unfold smartBridge
    repeat' split
    all_goals
      simp only [apply_ite Prod.snd, apply_ite countQuoteRequests,
        finishBridge_countQuote, countQuote_cons_quote, countQuote_append,
        countQuote_approvals, countQuote_single_quote, countQuote_nil]
    all_goals repeat' split
    all_goals omega
  · intro fa q1 tx1 q2 hchain hfa hq1 hq1ok hq1tx htruthy hprelim hq2 hq2ok hq2tx
    have hth : (smartBridge env args)
        = ("Error: Debridge API response after preliminary approval is still incomplete. Missing proper transaction data.",
           BridgeEvent.quoteRequest (mkDebridgeParams args fa env.senderAddress
               (jsOrStr args.recipientAddress env.senderAddress))
             :: (checkAndApproveTokenAllowance env.prelimAllowance args.tokenInAddress
                   (tx1.allowanceTarget.getD "") (tx1.allowanceValue.getD 0) true).2.map
                 BridgeEvent.approvalSubmit
             ++ [BridgeEvent.quoteRequest (mkDebridgeParams args fa env.senderAddress
                   (jsOrStr args.recipientAddress env.senderAddress))]) := by
      unfold smartBridge
      rw [hchain]
      simp only [hfa, hq1, hq1ok, hq1tx, htruthy, hprelim, hq2, hq2ok, hq2tx]
      simp
    rw [hth]
    refine ⟨rfl, ?_⟩
    simp [countQuote_cons_quote, countQuote_append, countQuote_approvals,
      countQuote_single_quote, countQuote_nil]

def bTx1 : BridgeTx :=
  { allowanceTarget := some "0xtarget", allowanceValue := some 100 }

def bQuote1 : BridgeQuote := { ok := true, tx := some bTx1 }

def bQuote2 : BridgeQuote := { ok := true, tx := none }

def bEnvIncomplete : BridgeEnv :=
  { chainId := some 56, senderAddress := "0xsender",
    formattedAmount := Except.ok 100000000,
    quote1 := Except.ok bQuote1,
    quote2 := Except.ok bQuote2,
    prelimAllowance := ⟨some 0, .accepted "0xh1"⟩,
    mainAllowance := ⟨some 0, .accepted "0xh2"⟩,
    bridgeSend := .accepted "0xh3" }

def bArgs : SmartBridgeArgs :=
  { fromChainId := 56, toChainId := 137,
    tokenInAddress := "0xaaaaaaaaaaaaaaaaaaaaaaaaaaaaaaaaaaaaaaaa",
    tokenOutAddress := "0xbbbbbbbbbbbbbbbbbbbbbbbbbbbbbbbbbbbbbbbb",
    amount := "100" }

theorem smartBridge_bounded_quote_requests_witness :
    (smartBridge bEnvIncomplete bArgs).1
      = "Error: Debridge API response after preliminary approval is still incomplete. Missing proper transaction data." ∧
    countQuoteRequests (smartBridge bEnvIncomplete bArgs).2 = 2 ∧
    countQuoteRequests (smartBridge bEnvIncomplete bArgs).2 ≤ 2 := by
  have h := smartBridge_bounded_quote_requests bEnvIncomplete bArgs
  have h2 := h.2 100000000 bQuote1 bTx1 bQuote2
    (by rfl) (by rfl) (by rfl) (by rfl) (by rfl) (by decide) (by decide)
    (by rfl) (by rfl) (by decide)
  exact ⟨h2.1, h2.2, h.1⟩

def bParams : DebridgeParams := mkDebridgeParams bArgs 100000000 "0xsender" "0xsender"

/-- C7 counterexample: the preliminary approval submitted for the quote's
`allowanceTarget` is for `maxUint256` — the flow passes `approveMax = true`
to the AllowanceManager — not for the quote's `allowanceValue` (100 here):
"approves exactly that target for exactly that amount" is false in its
amount half. -/
theorem smartBridge_prelim_approval_not_exact_amount :
    (smartBridge bEnvIncomplete bArgs).2
      = [.quoteRequest bParams,
         .approvalSubmit
           ⟨"0xaaaaaaaaaaaaaaaaaaaaaaaaaaaaaaaaaaaaaaaa", "0xtarget", maxUint256⟩,
         .quoteRequest bParams] ∧
    maxUint256 ≠ 100 := by
  constructor
  · rfl
  · decide

theorem checkAndApprove_max_full (env : AllowanceEnv) (token spender : String)
    (amt : ℕ) (hnn : isNativeToken token = false) :
    checkAndApproveTokenAllowance env token spender amt true
      = (sendTransactionModel env.send, [⟨token, spender, maxUint256⟩]) := by
  simp [checkAndApproveTokenAllowance, approveToken, hnn]

/-- C7 amended: when the first quote response carries a truthy
`allowanceTarget`/`allowanceValue`, the orchestrator submits exactly one
preliminary approval to exactly that target — with `approveMax = true`, so
for `maxUint256`, the quote's `allowanceValue` serving only as the required
amount — then re-issues the identical quote request once, and only then
submits the transaction taken from the second response. -/
theorem smartBridge_prelim_approval_then_single_requote (env : BridgeEnv)
    (args : SmartBridgeArgs) (fa : ℕ) (q1 : BridgeQuote) (tx1 : BridgeTx)
    (q2 : BridgeQuote) (tx2 : BridgeTx) (tgt to2 h1 h2 : String)
    (hchain : env.chainId = some args.fromChainId)
    (hfa : env.formattedAmount = .ok fa)
    (hq1 : env.quote1 = .ok q1) (hq1ok : q1.ok = true) (hq1tx : q1.tx = some tx1)
    (htgt : tx1.allowanceTarget = some tgt) (htgtne : tgt.data ≠ [])
    (hav : optNatTruthy tx1.allowanceValue = true)
    (hnn : isNativeToken args.tokenInAddress = false)
    (hpre : env.prelimAllowance.send = .accepted h1)
    (hq2 : env.quote2 = .ok q2) (hq2ok : q2.ok = true) (hq2tx : q2.tx = some tx2)
    (hto : tx2.toAddr = some to2) (htone : to2.data ≠ [])
    (hmain : env.mainAllowance.send = .accepted h2) :
    (smartBridge env args).2
      = [.quoteRequest (mkDebridgeParams args fa env.senderAddress
            (jsOrStr args.recipientAddress env.senderAddress)),
         .approvalSubmit ⟨args.tokenInAddress, tgt, maxUint256⟩,
         .quoteRequest (mkDebridgeParams args fa env.senderAddress
            (jsOrStr args.recipientAddress env.senderAddress)),
         .approvalSubmit ⟨args.tokenInAddress, to2, maxUint256⟩,
         .txSubmit to2 (jsOrStr tx2.dataHex "0x")
           (if args.payProtocolFee then computeNativeFee q2.fixFee tx2.value else 0)] := by
  have hemp : tgt.data.isEmpty = false := by
    cases hd : tgt.data with
    | nil => exact absurd hd htgtne
    | cons a l => rfl
  have hemp2 : to2.data.isEmpty = false := by
    cases hd : to2.data with
    | nil => exact absurd hd htone
    | cons a l => rfl
  have hc1 : (optStrTruthy (some tgt) && optNatTruthy tx1.allowanceValue) = true := by
    simp [optStrTruthy, hemp, hav]
  have hprelimFull := checkAndApprove_max_full env.prelimAllowance args.tokenInAddress
    tgt (tx1.allowanceValue.getD 0) hnn
  have hmainFull := checkAndApprove_max_full env.mainAllowance args.tokenInAddress
    to2 fa hnn
  have hq2exec : quoteHasExecutableTx q2 = true := by
    simp [quoteHasExecutableTx, hq2tx, hto, optStrTruthy, hemp2]
  unfold smartBridge
  rw [hchain]
  simp only [hfa, hq1, hq1ok, hq1tx, htgt, Option.getD_some, hc1, hprelimFull, hpre,
    hq2, hq2ok, hq2exec, sendTransactionModel]
  simp only [if_neg (by simp : ¬(args.fromChainId ≠ args.fromChainId))]
  simp only [Bool.true_eq_false, if_false, if_true]
  unfold finishBridge
  rw [hq2tx]
  simp only [Option.getD_some, hto, optionStr, hmainFull, hmain, sendTransactionModel]
  simp only [Bool.true_eq_false, if_false]
  simp [apply_ite Prod.snd]

def bTx2 : BridgeTx :=
  { toAddr := some "0xbridge", dataHex := some "0xdata", value := some 5 }

def bQuote2Exec : BridgeQuote := { ok := true, tx := some bTx2 }

def bEnvHappy : BridgeEnv := { bEnvIncomplete with quote2 := Except.ok bQuote2Exec }

theorem smartBridge_prelim_approval_then_single_requote_witness :
    (smartBridge bEnvHappy bArgs).2
      = [BridgeEvent.quoteRequest (mkDebridgeParams bArgs 100000000 bEnvHappy.senderAddress
            (jsOrStr bArgs.recipientAddress bEnvHappy.senderAddress)),
         BridgeEvent.approvalSubmit ⟨bArgs.tokenInAddress, "0xtarget", maxUint256⟩,
         BridgeEvent.quoteRequest (mkDebridgeParams bArgs 100000000 bEnvHappy.senderAddress
            (jsOrStr bArgs.recipientAddress bEnvHappy.senderAddress)),
         BridgeEvent.approvalSubmit ⟨bArgs.tokenInAddress, "0xbridge", maxUint256⟩,
         BridgeEvent.txSubmit "0xbridge" (jsOrStr bTx2.dataHex "0x")
           (if bArgs.payProtocolFee then computeNativeFee bQuote2Exec.fixFee bTx2.value
            else 0)] :=
  smartBridge_prelim_approval_then_single_requote bEnvHappy bArgs 100000000 bQuote1 bTx1
    bQuote2Exec bTx2 "0xtarget" "0xbridge" "0xh1" "0xh2"
    (by rfl) (by rfl) (by rfl) (by rfl) (by rfl) (by rfl) (by decide) (by decide)
    (by decide) (by rfl) (by rfl) (by rfl) (by rfl) (by rfl) (by decide) (by rfl)

/-! ## ActionRegistry dispatch: `Agentkit.run`

Two revisions of `run` are packed in `agentkit.ts`: the earlier arity-based
dispatcher (`runV1`, lines 141–167) and the later one that always requires
the smart account (`runV2`, lines 301–311).  Handler invocation is made
observable through `RunOutcome`; returning `RunOutcome.returnedMessage` is a
normal return, not a thrown exception. -/

/-- The dispatch-relevant part of an action descriptor: its name, its
`smartAccountRequired` flag and its handler's declared parameter count
(`action.func.length`). -/
structure ActionDescriptor where
  name : String
  smartAccountRequired : Bool
  paramCount : ℕ
deriving DecidableEq, Repr

inductive RunOutcome where
  | invokedArgsOnly
  | invokedWithSmartAccount
  | invokedWithPublicClient
  | returnedMessage (msg : String)
deriving DecidableEq, Repr

/-- The capability-missing message returned by both revisions of `run`. -/
def smartAccountRequiredMsg (name : String) : String :=
  "Unable to run Action: " ++ name
    ++ ". A Smart Account is required. Please configure Agentkit with a Wallet to run this action."

/-- `Agentkit.run`, first revision: inspect `func.length`; one-parameter
handlers get only `args`; handlers with more parameters and
`smartAccountRequired` get the smart account or — when none is configured —
a descriptive message; everything else gets the public client. -/
def runV1 (hasSmartAccount : Bool) (a : ActionDescriptor) : RunOutcome :=
  if a.paramCount = 1 then .invokedArgsOnly
  else if 1 < a.paramCount ∧ a.smartAccountRequired = true then
    if hasSmartAccount = false then .returnedMessage (smartAccountRequiredMsg a.name)
    else .invokedWithSmartAccount
  else .invokedWithPublicClient

/-- `Agentkit.run`, second revision: every action requires the smart
account; without one, the descriptive message is returned. -/
def runV2 (hasSmartAccount : Bool) (a : ActionDescriptor) : RunOutcome :=
  if hasSmartAccount = false then .returnedMessage (smartAccountRequiredMsg a.name)
  else .invokedWithSmartAccount

/-- C8: dispatching an action with `smartAccountRequired = true` (and, in
the arity-based first revision, a handler that actually takes an account,
i.e. `paramCount ≥ 2`) while no smart account is configured returns the
descriptive string — a value, not an exception — and does not invoke the
handler, under both revisions of `run`. -/
theorem run_without_smart_account_returns_message (a : ActionDescriptor)
    (hreq : a.smartAccountRequired = true) (hparams : 2 ≤ a.paramCount) :
    runV1 false a = .returnedMessage (smartAccountRequiredMsg a.name) ∧
    runV2 false a = .returnedMessage (smartAccountRequiredMsg a.name) ∧
    (∀ msg, (RunOutcome.returnedMessage msg ≠ .invokedArgsOnly ∧
        RunOutcome.returnedMessage msg ≠ .invokedWithSmartAccount ∧
        RunOutcome.returnedMessage msg ≠ .invokedWithPublicClient)) := by
  refine ⟨?_, ?_, ?_⟩
  · have h1 : ¬ a.paramCount = 1 := by omega
    simp [runV1, h1, hreq]
    omega
  · simp [runV2]
  · intro msg
    refine ⟨?_, ?_, ?_⟩ <;> intro h <;> exact RunOutcome.noConfusion h

theorem run_without_smart_account_returns_message_witness :
    runV1 false ⟨"smart_bridge", true, 2⟩
      = .returnedMessage (smartAccountRequiredMsg "smart_bridge") ∧
    runV2 false ⟨"smart_bridge", true, 2⟩
      = .returnedMessage (smartAccountRequiredMsg "smart_bridge") :=
  ⟨(run_without_smart_account_returns_message ⟨"smart_bridge", true, 2⟩
      (by decide) (by decide)).1,
   (run_without_smart_account_returns_message ⟨"smart_bridge", true, 2⟩
      (by decide) (by decide)).2.1⟩

end Agentkit
